import Mathlib

/-!
Verification of the AmpBridge coordinator (custom_components/ampbridge/coordinator.py):
the MQTT topic-driven state synchronization engine, the REST discovery client,
the source-name command translation, and the command publisher.

The Python coordinator keeps two dicts, `self.zones : dict[int, dict]` and
`self.groups : dict[int, dict]`.  We embed them as insertion-ordered association
lists from `Int` keys to records, matching Python dict semantics (update of an
existing key keeps its position, a new key is appended at the end).

Notifications (`self.hass.loop.call_soon_threadsafe(lambda:
self.async_set_updated_data(self.zones.copy()))`) are modelled as the list of
snapshots emitted by one processing step; note that both the zone branch and
the group branch of `_on_message` pass `self.zones.copy()`.
-/

set_option autoImplicit false

namespace AmpBridge

/-- Model of Python `int(s)` for the payload strings the coordinator coerces:
an optional single leading sign followed by one or more decimal digits.
Returns `none` where Python raises `ValueError`. -/
def natOfDigits (cs : List Char) : Nat :=
  cs.foldl (fun n c => n * 10 + (c.toNat - 48)) 0

def allDigits (cs : List Char) : Bool :=
  cs.all Char.isDigit

def intOfString? (s : String) : Option Int :=
  match s.toList with
  | [] => none
  | '-' :: rest =>
      if !rest.isEmpty && allDigits rest then some (-(natOfDigits rest : Int)) else none
  | '+' :: rest =>
      if !rest.isEmpty && allDigits rest then some ((natOfDigits rest : Int)) else none
  | cs =>
      if allDigits cs then some ((natOfDigits cs : Int)) else none

/-- A zone record, as built by `_discover_zones_via_api` and mutated by
`_on_message` (keys `zone_id`, `name`, `volume`, `mute`, `source`, `connected`,
`available_sources`). -/
structure ZoneRecord where
  zone_id : Int
  name : String
  volume : Int
  mute : String
  source : String
  connected : String
  available_sources : List String
  deriving Repr, DecidableEq

/-- A group record, as created on demand by the groups branch of `_on_message`
(keys `group_id`, `name`, `volume`, `mute`, `source`, `description`,
`zone_count`). -/
structure GroupRecord where
  group_id : Int
  name : String
  volume : Int
  mute : String
  source : String
  description : String
  zone_count : Int
  deriving Repr, DecidableEq

/-- Association-list lookup, modelling `d[k]` / `k in d` on a Python dict. -/
def alookup {α : Type} : List (Int × α) → Int → Option α
  | [], _ => none
  | (k, v) :: rest, i => if k = i then some v else alookup rest i

/-- Association-list store, modelling `d[k] = v` on a Python dict: an existing
key is updated in place, a fresh key is appended at the end. -/
def aupdate {α : Type} : List (Int × α) → Int → α → List (Int × α)
  | [], k, v => [(k, v)]
  | (k', v') :: rest, k, v =>
      if k' = k then (k, v) :: rest else (k', v') :: aupdate rest k v

/-- The coordinator's mutable state: the MQTT client handle (`self.mqtt_client`
is not `None`), the `self.connected` flag, and the two dicts. -/
structure CoordState where
  has_client : Bool
  connected : Bool
  zones : List (Int × ZoneRecord)
  groups : List (Int × GroupRecord)
  deriving Repr, DecidableEq

/-- A published MQTT message (`self.mqtt_client.publish(topic, mapped_value)`). -/
structure PubMsg where
  topic : String
  payload : String
  deriving Repr, DecidableEq

/-- The lists `ZONE_ATTRIBUTES` of const.py — exactly the attributes the zones
branch of `_on_message` dispatches on. -/
def ZONE_ATTRIBUTES : List String :=
  ["volume", "mute", "source", "connected", "name"]

/-- The list `GROUP_ATTRIBUTES` of const.py — exactly the attributes the groups
branch of `_on_message` dispatches on. -/
def GROUP_ATTRIBUTES : List String :=
  ["volume", "mute", "source", "name", "description", "zone_count"]

/-- The `source_mapping` dict literal of `_map_source_name`. -/
def source_mapping : List (String × String) :=
  [("Off", "Off"),
   ("Echo", "Source 1"),
   ("Server", "Source 2"),
   ("TV", "Source 3"),
   ("Bluetooth", "Source 4"),
   ("Aux", "Source 5"),
   ("CD", "Source 6"),
   ("Tuner", "Source 7"),
   ("Phono", "Source 8")]

/-- String-keyed dict lookup for `source_mapping.get`. -/
def slookup : List (String × String) → String → Option String
  | [], _ => none
  | (k, v) :: rest, s => if k = s then some v else slookup rest s

/-- `_map_source_name`: `source_mapping.get(source_name, source_name)`. -/
def map_source_name (source_name : String) : String :=
  (slookup source_mapping source_name).getD source_name

/-- Lexicographic comparison of character lists by code point: the order
Python's `sorted` uses on `str`. -/
def charListLe : List Char → List Char → Bool
  | [], _ => true
  | _ :: _, [] => false
  | c :: cs, d :: ds =>
      if c.toNat < d.toNat then true
      else if c.toNat = d.toNat then charListLe cs ds
      else false

/-- String order by code-point-lexicographic comparison, as Python compares
`str` values. -/
def strLe (a b : String) : Bool :=
  charListLe a.toList b.toList

/-- Insert a string into an already sorted list, keeping it sorted. -/
def orderedInsertStr (s : String) : List String → List String
  | [] => [s]
  | t :: ts => if strLe s t then s :: t :: ts else t :: orderedInsertStr s ts

/-- Insertion sort over strings: the model of Python `sorted` on a list of
strings. -/
def sortStrings : List String → List String
  | [] => []
  | s :: rest => orderedInsertStr s (sortStrings rest)

/-- `get_available_sources`: the union over all zone records of their
`available_sources` lists, as a set, returned sorted
(`sorted(list(sources))`). -/
def get_available_sources (st : CoordState) : List String :=
  sortStrings ((st.zones.map (fun p => p.2.available_sources)).flatten.dedup)

/-- The attribute dispatch of the zones branch of `_on_message` (lines
103-115): exactly one field is assigned; `volume` goes through `int(payload)`
and is left unchanged when that raises `ValueError`; an unrecognized attribute
assigns nothing. -/
def applyZoneAttr (z : ZoneRecord) (attr payload : String) : ZoneRecord :=
  if attr = "name" then { z with name := payload }
  else if attr = "volume" then
    match intOfString? payload with
    | some v => { z with volume := v }
    | none => z
  else if attr = "mute" then { z with mute := payload }
  else if attr = "source" then { z with source := payload }
  else if attr = "connected" then { z with connected := payload }
  else z

/-- The zones branch of `_on_message`: parse the id; drop the message when the
id is not an integer (`ValueError`) or the zone was never discovered (`zone_id
not in self.zones`); otherwise mutate the one addressed field and schedule one
`async_set_updated_data(self.zones.copy())` notification. -/
def zoneUpdate (st : CoordState) (idStr attr payload : String) :
    CoordState × List (List (Int × ZoneRecord)) :=
  match intOfString? idStr with
  | none => (st, [])
  | some zone_id =>
    match alookup st.zones zone_id with
    | none => (st, [])
    | some z =>
      let zones2 := aupdate st.zones zone_id (applyZoneAttr z attr payload)
      ({ st with zones := zones2 }, [zones2])

/-- The default record created by the groups branch of `_on_message` when
`group_id not in self.groups` (lines 131-140). -/
def defaultGroup (group_id : Int) : GroupRecord :=
  { group_id := group_id
    name := "Group " ++ toString group_id
    volume := 50
    mute := "OFF"
    source := "Off"
    description := ""
    zone_count := 0 }

/-- "Create group if it doesn't exist" (lines 130-140). -/
def ensureGroup (groups : List (Int × GroupRecord)) (group_id : Int) :
    List (Int × GroupRecord) :=
  match alookup groups group_id with
  | some _ => groups
  | none => groups ++ [(group_id, defaultGroup group_id)]

/-- The attribute dispatch of the groups branch of `_on_message` (lines
143-160). `volume` and `zone_count` go through `int(payload)` and are left
unchanged when that raises `ValueError`. -/
def applyGroupAttr (g : GroupRecord) (attr payload : String) : GroupRecord :=
  if attr = "name" then { g with name := payload }
  else if attr = "description" then { g with description := payload }
  else if attr = "volume" then
    match intOfString? payload with
    | some v => { g with volume := v }
    | none => g
  else if attr = "mute" then { g with mute := payload }
  else if attr = "source" then { g with source := payload }
  else if attr = "zone_count" then
    match intOfString? payload with
    | some v => { g with zone_count := v }
    | none => g
  else g

/-- The groups branch of `_on_message`: parse the id; create the default group
record when absent; mutate the addressed field; schedule one notification.
Faithful quirk: the scheduled notification passes `self.zones.copy()` (line
164), i.e. the zones map, which the group branch never modifies. -/
def groupUpdate (st : CoordState) (idStr attr payload : String) :
    CoordState × List (List (Int × ZoneRecord)) :=
  match intOfString? idStr with
  | none => (st, [])
  | some group_id =>
    let groups1 := ensureGroup st.groups group_id
    let groups2 :=
      match alookup groups1 group_id with
      | some g => aupdate groups1 group_id (applyGroupAttr g attr payload)
      | none => groups1
    ({ st with groups := groups2 }, [st.zones])

/-- Helper for `splitSlash`: the accumulator holds the current segment
reversed. -/
def splitSlashAux : List Char → List Char → List String
  | [], acc => [⟨acc.reverse⟩]
  | c :: rest, acc =>
      if c = '/' then (⟨acc.reverse⟩ : String) :: splitSlashAux rest []
      else splitSlashAux rest (c :: acc)

/-- Python `topic.split("/")`: cut the string at every slash, keeping empty
segments. -/
def splitSlash (s : String) : List String :=
  splitSlashAux s.toList []

/-- `_on_message` topic handling: `topic.split("/")`, require at least four
segments with `parts[0] == "ampbridge"`, then dispatch on `parts[1]` being
`"zones"` or `"groups"`; anything else is dropped with no state change and no
notification. -/
def onMessage (st : CoordState) (topic payload : String) :
    CoordState × List (List (Int × ZoneRecord)) :=
  match splitSlash topic with
  | p0 :: p1 :: p2 :: p3 :: _ =>
    if p0 = "ampbridge" then
      if p1 = "zones" then zoneUpdate st p2 p3 payload
      else if p1 = "groups" then groupUpdate st p2 p3 payload
      else (st, [])
    else (st, [])
  | _ => (st, [])

/-- `async_send_command`: when the client is absent or not connected, log and
return (command dropped); otherwise translate the value through
`_map_source_name` for the `source` attribute only and publish to
`ampbridge/zones/{zone_id}/{command}/set`.  No local record is touched and no
notification is scheduled. -/
def async_send_command (st : CoordState) (zone_id : Int) (command value : String) :
    CoordState × List PubMsg × List (List (Int × ZoneRecord)) :=
  if !st.has_client || !st.connected then (st, [], [])
  else
    let mapped_value := if command = "source" then map_source_name value else value
    let topic := "ampbridge/zones/" ++ toString zone_id ++ "/" ++ command ++ "/set"
    (st, [{ topic := topic, payload := mapped_value }], [])

/-- `async_send_group_command`: same as `async_send_command` but publishing to
`ampbridge/groups/{group_id}/{command}/set`. -/
def async_send_group_command (st : CoordState) (group_id : Int) (command value : String) :
    CoordState × List PubMsg × List (List (Int × ZoneRecord)) :=
  if !st.has_client || !st.connected then (st, [], [])
  else
    let mapped_value := if command = "source" then map_source_name value else value
    let topic := "ampbridge/groups/" ++ toString group_id ++ "/" ++ command ++ "/set"
    (st, [{ topic := topic, payload := mapped_value }], [])

/-- One element of the `zones` array of the REST discovery response.  Each
field is `none` when the key is absent from the JSON object; Python raises
`KeyError` on `zone_data["k"]` for absent keys, while `available_sources` is
read with `zone_data.get("available_sources", [])`. -/
structure ApiZone where
  id : Option Int
  name : Option String
  volume : Option Int
  muted : Option Bool
  source : Option String
  connected : Option Bool
  available_sources : Option (List String)
  deriving Repr, DecidableEq

/-- The outcome of the `GET {api_url}/zones` call: a network/client exception,
or a response with an HTTP status, the optional `success` flag and the optional
`zones` array. -/
inductive ApiResult where
  | netError
  | response (status : Int) (success : Option Bool) (zones : Option (List ApiZone))
  deriving Repr, DecidableEq

/-- The dict built for one discovered zone (lines 266-275): `KeyError` (`none`)
when any required key is missing, otherwise the zone record with
`mute = "ON" if muted else "OFF"`, `connected = "ON" if connected else "OFF"`
and `available_sources` defaulting to `[]`. -/
def convertApiZone (zd : ApiZone) : Option (Int × ZoneRecord) :=
  match zd.id, zd.name, zd.volume, zd.muted, zd.source, zd.connected with
  | some i, some n, some v, some m, some s, some c =>
      some (i, { zone_id := i
                 name := n
                 volume := v
                 mute := if m then "ON" else "OFF"
                 source := s
                 connected := if c then "ON" else "OFF"
                 available_sources := zd.available_sources.getD [] })
  | _, _, _, _, _, _ => none

/-- The `for zone_data in data["zones"]` loop: insert converted zones one by
one; a `KeyError` on some element aborts the loop (the Boolean result is
`false`), leaving the zones already inserted in place. -/
def insertZones (zones : List (Int × ZoneRecord)) :
    List ApiZone → List (Int × ZoneRecord) × Bool
  | [] => (zones, true)
  | zd :: rest =>
    match convertApiZone zd with
    | some (i, r) => insertZones (aupdate zones i r) rest
    | none => (zones, false)

/-- `_discover_zones_via_api`: on HTTP 200 with `data.get("success")` truthy
and a `"zones"` key, run the insertion loop and, when it completes, notify once
with `self.zones.copy()`; every failure (network exception, bad status,
unsuccessful flag, missing `zones` key, `KeyError` inside the loop) is caught
and logged, nothing propagates to the caller. -/
def discover_zones_via_api (st : CoordState) (res : ApiResult) :
    CoordState × List (List (Int × ZoneRecord)) :=
  match res with
  | .netError => (st, [])
  | .response status success zonesJson =>
    if status = 200 then
      match success, zonesJson with
      | some true, some zds =>
        let out := insertZones st.zones zds
        if out.2 then ({ st with zones := out.1 }, [out.1])
        else ({ st with zones := out.1 }, [])
      | _, _ => (st, [])
    else (st, [])

/-- The coordinator's initial state: empty maps, no client, not connected. -/
def initialState : CoordState :=
  { has_client := false, connected := false, zones := [], groups := [] }

/-! Concrete fixtures used by the counterexamples and witnesses below. -/

/-- A discovered zone record whose `available_sources` is
`["Echo", "CustomName", "TV"]`. -/
def zoneEchoCustomTV : ZoneRecord :=
  { zone_id := 0
    name := "Living Room"
    volume := 20
    mute := "OFF"
    source := "Off"
    connected := "ON"
    available_sources := ["Echo", "CustomName", "TV"] }

/-- A connected coordinator state holding `zoneEchoCustomTV` at key `0`. -/
def stEchoCustomTV : CoordState :=
  { has_client := true
    connected := true
    zones := [(0, zoneEchoCustomTV)]
    groups := [] }

/-- A zone record whose `available_sources` is `["TV", "Echo"]` — a canonical
discovery order that is not alphabetical. -/
def zoneTVEcho : ZoneRecord :=
  { zone_id := 0
    name := "Den"
    volume := 30
    mute := "OFF"
    source := "TV"
    connected := "ON"
    available_sources := ["TV", "Echo"] }

/-- A state whose only zone carries the canonical order `["TV", "Echo"]`. -/
def stTVEcho : CoordState :=
  { has_client := true
    connected := true
    zones := [(0, zoneTVEcho)]
    groups := [] }

/-- A zone record with volume 50 and no `available_sources`. -/
def zonePlain : ZoneRecord :=
  { zone_id := 3
    name := "Kitchen"
    volume := 50
    mute := "OFF"
    source := "Off"
    connected := "ON"
    available_sources := [] }

/-- A state holding `zonePlain` at key `3`. -/
def stPlain : CoordState :=
  { has_client := true
    connected := true
    zones := [(3, zonePlain)]
    groups := [] }

/-- A complete discovery-response zone object with id 1. -/
def apiZoneGood : ApiZone :=
  { id := some 1
    name := some "Zone One"
    volume := some 40
    muted := some false
    source := some "TV"
    connected := some true
    available_sources := some ["Echo", "TV"] }

/-- A discovery-response zone object with the `name` key missing: reading it
raises `KeyError` inside the conversion loop. -/
def apiZoneNoName : ApiZone :=
  { id := some 2
    name := none
    volume := some 10
    muted := some true
    source := some "Off"
    connected := some false
    available_sources := none }

/-- The zone record that discovery builds from `apiZoneGood`. -/
def recGood : ZoneRecord :=
  { zone_id := 1
    name := "Zone One"
    volume := 40
    mute := "OFF"
    source := "TV"
    connected := "ON"
    available_sources := ["Echo", "TV"] }

/-- A zone record whose `available_sources` contains `"Off"` at index 0. -/
def zoneOffTV : ZoneRecord :=
  { zone_id := 0
    name := "Patio"
    volume := 10
    mute := "OFF"
    source := "TV"
    connected := "ON"
    available_sources := ["Off", "TV"] }

/-- A connected state whose only zone lists `"Off"` among its
`available_sources`. -/
def stOffTV : CoordState :=
  { has_client := true
    connected := true
    zones := [(0, zoneOffTV)]
    groups := [] }

/-- A connected state holding one zone and one already-created group. -/
def stWithGroup : CoordState :=
  { has_client := true
    connected := true
    zones := [(3, zonePlain)]
    groups := [(7, defaultGroup 7)] }

/-! ## Helper lemmas about the dict model -/

theorem alookup_aupdate_self {α : Type} (l : List (Int × α)) (k : Int) (v : α) :
    alookup (aupdate l k v) k = some v := by
  induction l with
  | nil => simp [aupdate, alookup]
  | cons p rest ih =>
    obtain ⟨k1, v1⟩ := p
    by_cases h : k1 = k
    · subst h
      simp [aupdate, alookup]
    · simp [aupdate, alookup, h, ih]

theorem alookup_aupdate_ne {α : Type} (l : List (Int × α)) (k j : Int) (v : α)
    (h : j ≠ k) :
    alookup (aupdate l k v) j = alookup l j := by
  have hkj : ¬ k = j := fun hh => h hh.symm
  induction l with
  | nil => simp [aupdate, alookup, hkj]
  | cons p rest ih =>
    obtain ⟨k1, v1⟩ := p
    by_cases hk : k1 = k
    · subst hk
      simp [aupdate, alookup, hkj]
    · simp only [aupdate, if_neg hk, alookup, ih]

theorem aupdate_self {α : Type} (l : List (Int × α)) (k : Int) (v : α)
    (h : alookup l k = some v) : aupdate l k v = l := by
  induction l with
  | nil => simp [alookup] at h
  | cons p rest ih =>
    obtain ⟨k1, v1⟩ := p
    by_cases hk : k1 = k
    · subst hk
      simp only [alookup, if_pos] at h
      have hv : v1 = v := by simpa using h
      simp [aupdate, hv]
    · simp only [alookup, if_neg hk] at h
      simp [aupdate, hk, ih h]

theorem keys_aupdate {α : Type} (l : List (Int × α)) (k : Int) (v w : α)
    (h : alookup l k = some w) :
    (aupdate l k v).map Prod.fst = l.map Prod.fst := by
  induction l with
  | nil => simp [alookup] at h
  | cons p rest ih =>
    obtain ⟨k1, v1⟩ := p
    by_cases hk : k1 = k
    · subst hk
      simp [aupdate]
    · simp only [alookup, if_neg hk] at h
      simp [aupdate, hk, ih h]

theorem alookup_append_missing {α : Type} (l : List (Int × α)) (k : Int) (v : α)
    (h : alookup l k = none) :
    alookup (l ++ [(k, v)]) k = some v := by
  induction l with
  | nil => simp [alookup]
  | cons p rest ih =>
    obtain ⟨k1, v1⟩ := p
    by_cases hk : k1 = k
    · simp [alookup, hk] at h
    · simp only [alookup, if_neg hk] at h
      simp [alookup, hk, ih h]

theorem slookup_none (l : List (String × String)) (s : String)
    (h : ∀ p ∈ l, s ≠ p.1) : slookup l s = none := by
  induction l with
  | nil => simp [slookup]
  | cons p rest ih =>
    obtain ⟨k1, v1⟩ := p
    have hne : k1 ≠ s := fun hh => h (k1, v1) (by simp) hh.symm
    simp only [slookup, if_neg hne]
    exact ih fun q hq => h q (by simp [hq])

/-! ## Helper lemmas about the string sort -/

theorem charListLe_total : ∀ a b : List Char,
    charListLe a b = true ∨ charListLe b a = true := by
  intro a
  induction a with
  | nil => intro b; left; simp [charListLe]
  | cons c cs ih =>
    intro b
    cases b with
    | nil => right; simp [charListLe]
    | cons d ds =>
      by_cases h1 : c.toNat < d.toNat
      · left; simp [charListLe, h1]
      · by_cases h2 : c.toNat = d.toNat
        · rcases ih ds with h | h
          · left; simp [charListLe, h1, h2, h]
          · right; simp [charListLe, h2.symm, h]
        · right
          have h3 : d.toNat < c.toNat := by omega
          simp [charListLe, h3]

theorem charListLe_trans : ∀ a b c : List Char,
    charListLe a b = true → charListLe b c = true → charListLe a c = true := by
  intro a
  induction a with
  | nil => intro b c _ _; simp [charListLe]
  | cons x xs ih =>
    intro b c hab hbc
    cases b with
    | nil => simp [charListLe] at hab
    | cons y ys =>
      cases c with
      | nil => simp [charListLe] at hbc
      | cons z zs =>
        simp only [charListLe] at hab hbc ⊢
        by_cases h1 : x.toNat < y.toNat
        · by_cases h2 : y.toNat < z.toNat
          · simp [show x.toNat < z.toNat by omega]
          · simp only [if_neg h2] at hbc
            by_cases h3 : y.toNat = z.toNat
            · simp [show x.toNat < z.toNat by omega]
            · simp [h3] at hbc
        · simp only [if_neg h1] at hab
          by_cases h4 : x.toNat = y.toNat
          · simp only [if_pos h4] at hab
            by_cases h2 : y.toNat < z.toNat
            · simp [show x.toNat < z.toNat by omega]
            · simp only [if_neg h2] at hbc
              by_cases h3 : y.toNat = z.toNat
              · rw [if_pos h3] at hbc
                have hxz : ¬ x.toNat < z.toNat := by omega
                simp [hxz, show x.toNat = z.toNat by omega, ih ys zs hab hbc]
              · simp [h3] at hbc
          · simp [h4] at hab

theorem strLe_total (a b : String) : strLe a b = true ∨ strLe b a = true :=
  charListLe_total a.toList b.toList

theorem strLe_trans (a b c : String) (h1 : strLe a b = true) (h2 : strLe b c = true) :
    strLe a c = true :=
  charListLe_trans a.toList b.toList c.toList h1 h2

theorem mem_orderedInsertStr (s a : String) (l : List String) :
    a ∈ orderedInsertStr s l ↔ a = s ∨ a ∈ l := by
  induction l with
  | nil => simp [orderedInsertStr]
  | cons t ts ih =>
    by_cases h : strLe s t
    · simp [orderedInsertStr, h]
    · simp only [orderedInsertStr, if_neg h, List.mem_cons, ih]
      tauto

theorem mem_sortStrings (a : String) (l : List String) :
    a ∈ sortStrings l ↔ a ∈ l := by
  induction l with
  | nil => simp [sortStrings]
  | cons s rest ih => simp [sortStrings, mem_orderedInsertStr, ih]

theorem sorted_orderedInsertStr (s : String) (l : List String)
    (h : List.Sorted (fun a b => strLe a b = true) l) :
    List.Sorted (fun a b => strLe a b = true) (orderedInsertStr s l) := by
  induction l with
  | nil => simp [orderedInsertStr]
  | cons t ts ih =>
    rw [List.sorted_cons] at h
    obtain ⟨ht, hts⟩ := h
    by_cases hst : strLe s t
    · simp only [orderedInsertStr, if_pos hst]
      rw [List.sorted_cons]
      refine ⟨?_, ?_⟩
      · intro b hb
        rcases List.mem_cons.mp hb with hb | hb
        · exact hb ▸ hst
        · exact strLe_trans s t b hst (ht b hb)
      · rw [List.sorted_cons]
        exact ⟨ht, hts⟩
    · simp only [orderedInsertStr, if_neg hst]
      rw [List.sorted_cons]
      refine ⟨?_, ih hts⟩
      intro b hb
      rcases (mem_orderedInsertStr s b ts).mp hb with hb | hb
      · rcases strLe_total s t with h2 | h2
        · exact absurd h2 hst
        · rw [hb]
          exact h2
      · exact ht b hb

theorem sorted_sortStrings (l : List String) :
    List.Sorted (fun a b => strLe a b = true) (sortStrings l) := by
  induction l with
  | nil => simp [sortStrings]
  | cons s rest ih => exact sorted_orderedInsertStr s (sortStrings rest) ih

theorem nodup_orderedInsertStr (s : String) (l : List String)
    (hs : s ∉ l) (h : l.Nodup) : (orderedInsertStr s l).Nodup := by
  induction l with
  | nil => simp [orderedInsertStr]
  | cons t ts ih =>
    rw [List.nodup_cons] at h
    obtain ⟨ht, hts⟩ := h
    by_cases hst : strLe s t
    · simp only [orderedInsertStr, if_pos hst]
      rw [List.nodup_cons]
      exact ⟨hs, List.nodup_cons.mpr ⟨ht, hts⟩⟩
    · simp only [orderedInsertStr, if_neg hst]
      rw [List.nodup_cons]
      refine ⟨?_, ih (fun hm => hs (by simp [hm])) hts⟩
      intro hm
      rcases (mem_orderedInsertStr s t ts).mp hm with hm | hm
      · exact hs (by simp [hm.symm])
      · exact ht hm

theorem nodup_sortStrings (l : List String) (h : l.Nodup) : (sortStrings l).Nodup := by
  induction l with
  | nil => simp [sortStrings]
  | cons s rest ih =>
    rw [List.nodup_cons] at h
    exact nodup_orderedInsertStr s (sortStrings rest)
      (fun hm => h.1 ((mem_sortStrings s rest).mp hm)) (ih h.2)

/-! ## Helper lemmas about the ingestion engine -/

theorem applyZoneAttr_not_recognized (z : ZoneRecord) (attr payload : String)
    (h : attr ∉ ZONE_ATTRIBUTES) : applyZoneAttr z attr payload = z := by
  simp only [ZONE_ATTRIBUTES, List.mem_cons, List.not_mem_nil, or_false, not_or] at h
  obtain ⟨h1, h2, h3, h4, h5⟩ := h
  simp [applyZoneAttr, h1, h2, h3, h4, h5]

theorem applyGroupAttr_not_recognized (g : GroupRecord) (attr payload : String)
    (h : attr ∉ GROUP_ATTRIBUTES) : applyGroupAttr g attr payload = g := by
  simp only [GROUP_ATTRIBUTES, List.mem_cons, List.not_mem_nil, or_false, not_or] at h
  obtain ⟨h1, h2, h3, h4, h5, h6⟩ := h
  simp [applyGroupAttr, h1, h2, h3, h4, h5, h6]

theorem zoneUpdate_keys (st : CoordState) (idStr attr payload : String) :
    ((zoneUpdate st idStr attr payload).1.zones).map Prod.fst =
      st.zones.map Prod.fst := by
  cases hid : intOfString? idStr with
  | none => simp [zoneUpdate, hid]
  | some zid =>
    cases hz : alookup st.zones zid with
    | none => simp [zoneUpdate, hid, hz]
    | some z =>
      simp only [zoneUpdate, hid, hz]
      exact keys_aupdate st.zones zid _ z hz

theorem groupUpdate_zones (st : CoordState) (idStr attr payload : String) :
    (groupUpdate st idStr attr payload).1.zones = st.zones := by
  cases hid : intOfString? idStr with
  | none => simp [groupUpdate, hid]
  | some gid =>
    cases hg : alookup (ensureGroup st.groups gid) gid <;> simp [groupUpdate, hid, hg]

/-! ## Claim theorems -/

/-- Claim C1, counterexample: with `available_sources = ["Echo", "CustomName", "TV"]`
and `"CustomName"` neither `"Off"` nor a legacy-table key, the translator does
NOT return `"Source 2"`: `_map_source_name` never consults `available_sources`
and passes `"CustomName"` through unchanged, which is also the payload the
command publisher sends. -/
theorem C1_counterexample :
    zoneEchoCustomTV.available_sources = ["Echo", "CustomName", "TV"] ∧
    map_source_name "CustomName" = "CustomName" ∧
    (async_send_command stEchoCustomTV 0 "source" "CustomName").2.1 =
      [{ topic := "ampbridge/zones/0/source/set", payload := "CustomName" }] ∧
    ("CustomName" : String) ≠ "Source 2" := by
  exact ⟨by decide, by decide, by decide, by decide⟩

/-- Claim C1, amended: for every source name `v` that is not `"Off"` and not a
key of the legacy table, the Command Translator returns `v` unchanged
(passthrough), regardless of any `available_sources` ordering; there is no
positional lookup at all. -/
theorem C1_amended_map (v : String) (hOff : v ≠ "Off")
    (hleg : v ∉ ["Echo", "Server", "TV", "Bluetooth", "Aux", "CD", "Tuner", "Phono"]) :
    map_source_name v = v := by
  simp only [List.mem_cons, List.not_mem_nil, or_false, not_or] at hleg
  obtain ⟨h1, h2, h3, h4, h5, h6, h7, h8⟩ := hleg
  simp [map_source_name, slookup, source_mapping, Ne.symm hOff, Ne.symm h1, Ne.symm h2,
    Ne.symm h3, Ne.symm h4, Ne.symm h5, Ne.symm h6, Ne.symm h7, Ne.symm h8]

/-- Claim C1, witness for the amended theorem at `v = "CustomName"`. -/
theorem C1_amended_witness : map_source_name "CustomName" = "CustomName" :=
  C1_amended_map "CustomName" (by decide) (by decide)

/-- Claim C9: the translator maps `"Off"` to `"Off"` and every legacy-table key
to its positional `"Source N"` value; since `_map_source_name` takes no state,
the result is independent of `available_sources`, demonstrated on a state
listing `"Off"` at index 0 and one listing `"TV"` at index 0. -/
theorem C9_legacy_table :
    map_source_name "Off" = "Off" ∧
    map_source_name "Echo" = "Source 1" ∧
    map_source_name "Server" = "Source 2" ∧
    map_source_name "TV" = "Source 3" ∧
    map_source_name "Bluetooth" = "Source 4" ∧
    map_source_name "Aux" = "Source 5" ∧
    map_source_name "CD" = "Source 6" ∧
    map_source_name "Tuner" = "Source 7" ∧
    map_source_name "Phono" = "Source 8" ∧
    zoneOffTV.available_sources = ["Off", "TV"] ∧
    (async_send_command stOffTV 0 "source" "Off").2.1 =
      [{ topic := "ampbridge/zones/0/source/set", payload := "Off" }] ∧
    zoneTVEcho.available_sources = ["TV", "Echo"] ∧
    (async_send_command stTVEcho 0 "source" "TV").2.1 =
      [{ topic := "ampbridge/zones/0/source/set", payload := "Source 3" }] := by
  decide

/-- Claim C2: an MQTT update for a zone id never discovered leaves the state
untouched and emits no notification; an update for a fresh group id creates
exactly the default group record; and no ingestion step ever changes the key
set of the zones map (zones are created only by discovery). -/
theorem C2_zones_vs_groups :
    (∀ (st : CoordState) (idStr attr payload : String) (zid : Int),
        intOfString? idStr = some zid →
        alookup st.zones zid = none →
        zoneUpdate st idStr attr payload = (st, [])) ∧
    (∀ (groups : List (Int × GroupRecord)) (gid : Int),
        alookup groups gid = none →
        ensureGroup groups gid =
          groups ++ [(gid, { group_id := gid
                             name := "Group " ++ toString gid
                             volume := 50
                             mute := "OFF"
                             source := "Off"
                             description := ""
                             zone_count := 0 })]) ∧
    (∀ (st : CoordState) (topic payload : String),
        ((onMessage st topic payload).1.zones).map Prod.fst = st.zones.map Prod.fst) := by
  refine ⟨?_, ?_, ?_⟩
  · intro st idStr attr payload zid hid hz
    simp [zoneUpdate, hid, hz]
  · intro groups gid hg
    simp [ensureGroup, hg, defaultGroup]
  · intro st topic payload
    unfold onMessage
    cases splitSlash topic with
    | nil => rfl
    | cons p0 t0 =>
      cases t0 with
      | nil => rfl
      | cons p1 t1 =>
        cases t1 with
        | nil => rfl
        | cons p2 t2 =>
          cases t2 with
          | nil => rfl
          | cons p3 t3 =>
            by_cases h0 : p0 = "ampbridge"
            · by_cases h1 : p1 = "zones"
              · simp [h0, h1, zoneUpdate_keys]
              · by_cases h2 : p1 = "groups"
                · simp [h0, h1, h2, groupUpdate_zones]
                · simp [h0, h1, h2]
            · simp [h0]

/-- Claim C2, witness: zone id 42 was never discovered, so its update is
dropped; group id 7 is created with the default record; a group message leaves
the zone keys unchanged. -/
theorem C2_witness :
    zoneUpdate stPlain "42" "volume" "70" = (stPlain, []) ∧
    ensureGroup [] 7 =
      [(7, { group_id := 7
             name := "Group " ++ toString (7 : Int)
             volume := 50
             mute := "OFF"
             source := "Off"
             description := ""
             zone_count := 0 })] ∧
    ((onMessage stPlain "ampbridge/groups/7/mute" "ON").1.zones).map Prod.fst =
      stPlain.zones.map Prod.fst :=
  ⟨C2_zones_vs_groups.1 stPlain "42" "volume" "70" 42 (by decide) (by decide),
   C2_zones_vs_groups.2.1 [] 7 (by decide),
   C2_zones_vs_groups.2.2 stPlain "ampbridge/groups/7/mute" "ON"⟩

/-- Claim C3, counterexample: in a connected state whose zone 0 has source
`"TV"`, sending the source command `"Echo"` publishes the wire value but leaves
the local record's `source` at `"TV"` (no optimistic overwrite) and triggers
zero snapshot notifications — the claim asserts the field becomes the human
value with one immediate notification. -/
theorem C3_counterexample :
    stTVEcho.connected = true ∧
    (alookup ((async_send_command stTVEcho 0 "source" "Echo").1.zones) 0).map
        (fun z => z.source) = some "TV" ∧
    ("TV" : String) ≠ "Echo" ∧
    (async_send_command stTVEcho 0 "source" "Echo").2.2 = [] := by
  exact ⟨by decide, by decide, by decide, by decide⟩

/-- Claim C3, amended: a `source` command sent while connected publishes the
translated wire value to the set topic and performs NO local state change and
NO snapshot notification: the local record keeps its old `source` value until a
real MQTT update arrives (there is no optimistic write-through). -/
theorem C3_amended_no_optimistic_write (st : CoordState) (eid : Int) (v : String)
    (hc : st.has_client = true) (hconn : st.connected = true) :
    async_send_command st eid "source" v =
      (st, [{ topic := "ampbridge/zones/" ++ toString eid ++ "/source/set"
              payload := map_source_name v }], []) ∧
    async_send_group_command st eid "source" v =
      (st, [{ topic := "ampbridge/groups/" ++ toString eid ++ "/source/set"
              payload := map_source_name v }], []) := by
  constructor <;>
    simp [async_send_command, async_send_group_command, hc, hconn, String.append_assoc]

/-- Claim C3, witness for the amended theorem on a concrete connected state. -/
theorem C3_amended_witness :
    async_send_command stTVEcho 5 "source" "Echo" =
      (stTVEcho, [{ topic := "ampbridge/zones/" ++ toString (5 : Int) ++ "/source/set"
                    payload := map_source_name "Echo" }], []) ∧
    async_send_group_command stTVEcho 5 "source" "Echo" =
      (stTVEcho, [{ topic := "ampbridge/groups/" ++ toString (5 : Int) ++ "/source/set"
                    payload := map_source_name "Echo" }], []) :=
  C3_amended_no_optimistic_write stTVEcho 5 "Echo" (by decide) (by decide)

/-- Claim C4, counterexample: the only zone record carries the canonical order
`["TV", "Echo"]` (a canonical order IS known), yet `get_available_sources`
returns the alphabetically sorted union `["Echo", "TV"]`, not the canonical
ordering. -/
theorem C4_counterexample :
    zoneTVEcho.available_sources = ["TV", "Echo"] ∧
    get_available_sources stTVEcho = ["Echo", "TV"] ∧
    (["Echo", "TV"] : List String) ≠ ["TV", "Echo"] := by
  exact ⟨by decide, by decide, by decide⟩

/-- Claim C4, amended: `get_available_sources` unconditionally returns the
sorted, duplicate-free union of the `available_sources` of all zone records —
it never returns the canonical discovery ordering, even when one is known. -/
theorem C4_amended_sorted_union (st : CoordState) :
    List.Sorted (fun a b => strLe a b = true) (get_available_sources st) ∧
    (get_available_sources st).Nodup ∧
    ∀ a : String,
      a ∈ get_available_sources st ↔ ∃ p ∈ st.zones, a ∈ p.2.available_sources := by
  refine ⟨sorted_sortStrings _, nodup_sortStrings _ (List.nodup_dedup _), ?_⟩
  intro a
  rw [get_available_sources, mem_sortStrings, List.mem_dedup, List.mem_flatten]
  constructor
  · rintro ⟨l, hl, hal⟩
    obtain ⟨p, hp, rfl⟩ := List.mem_map.mp hl
    exact ⟨p, hp, hal⟩
  · rintro ⟨p, hp, hap⟩
    exact ⟨p.2.available_sources, List.mem_map.mpr ⟨p, hp, rfl⟩, hap⟩

/-- Claim C5: for a zones topic whose id is numeric and pre-registered and
whose attribute is recognized, ingestion mutates exactly the addressed field of
exactly that record (integer-coerced for `volume`), leaves every other record,
the groups map and the flags unchanged, and emits exactly one notification
carrying the complete (new) zones map. -/
theorem C5_single_field_update (st : CoordState) (idStr attr payload : String)
    (zid vol : Int) (z : ZoneRecord)
    (hid : intOfString? idStr = some zid)
    (hz : alookup st.zones zid = some z)
    (hattr : attr ∈ ZONE_ATTRIBUTES)
    (hvol : attr = "volume" → intOfString? payload = some vol) :
    (zoneUpdate st idStr attr payload).2 =
      [(zoneUpdate st idStr attr payload).1.zones] ∧
    (zoneUpdate st idStr attr payload).1.groups = st.groups ∧
    (zoneUpdate st idStr attr payload).1.has_client = st.has_client ∧
    (zoneUpdate st idStr attr payload).1.connected = st.connected ∧
    (∀ j : Int, j ≠ zid →
        alookup (zoneUpdate st idStr attr payload).1.zones j = alookup st.zones j) ∧
    (attr = "name" →
        alookup (zoneUpdate st idStr attr payload).1.zones zid =
          some { z with name := payload }) ∧
    (attr = "volume" →
        alookup (zoneUpdate st idStr attr payload).1.zones zid =
          some { z with volume := vol }) ∧
    (attr = "mute" →
        alookup (zoneUpdate st idStr attr payload).1.zones zid =
          some { z with mute := payload }) ∧
    (attr = "source" →
        alookup (zoneUpdate st idStr attr payload).1.zones zid =
          some { z with source := payload }) ∧
    (attr = "connected" →
        alookup (zoneUpdate st idStr attr payload).1.zones zid =
          some { z with connected := payload }) := by
  refine ⟨?_, ?_, ?_, ?_, ?_, ?_, ?_, ?_, ?_, ?_⟩
  · simp [zoneUpdate, hid, hz]
  · simp [zoneUpdate, hid, hz]
  · simp [zoneUpdate, hid, hz]
  · simp [zoneUpdate, hid, hz]
  · intro j hj
    simp only [zoneUpdate, hid, hz]
    exact alookup_aupdate_ne st.zones zid j _ hj
  · intro ha
    subst ha
    simp [zoneUpdate, hid, hz, applyZoneAttr, alookup_aupdate_self]
  · intro ha
    subst ha
    simp [zoneUpdate, hid, hz, applyZoneAttr, hvol rfl, alookup_aupdate_self]
  · intro ha
    subst ha
    simp [zoneUpdate, hid, hz, applyZoneAttr, alookup_aupdate_self]
  · intro ha
    subst ha
    simp [zoneUpdate, hid, hz, applyZoneAttr, alookup_aupdate_self]
  · intro ha
    subst ha
    simp [zoneUpdate, hid, hz, applyZoneAttr, alookup_aupdate_self]

/-- Claim C5, witness at zone 3 of `stPlain`, attribute `volume`, payload
`"70"`. -/
theorem C5_witness :
    (zoneUpdate stPlain "3" "volume" "70").2 =
      [(zoneUpdate stPlain "3" "volume" "70").1.zones] ∧
    (zoneUpdate stPlain "3" "volume" "70").1.groups = stPlain.groups ∧
    (zoneUpdate stPlain "3" "volume" "70").1.has_client = stPlain.has_client ∧
    (zoneUpdate stPlain "3" "volume" "70").1.connected = stPlain.connected ∧
    (∀ j : Int, j ≠ 3 →
        alookup (zoneUpdate stPlain "3" "volume" "70").1.zones j =
          alookup stPlain.zones j) ∧
    ("volume" = "name" →
        alookup (zoneUpdate stPlain "3" "volume" "70").1.zones 3 =
          some { zonePlain with name := "70" }) ∧
    ("volume" = "volume" →
        alookup (zoneUpdate stPlain "3" "volume" "70").1.zones 3 =
          some { zonePlain with volume := 70 }) ∧
    ("volume" = "mute" →
        alookup (zoneUpdate stPlain "3" "volume" "70").1.zones 3 =
          some { zonePlain with mute := "70" }) ∧
    ("volume" = "source" →
        alookup (zoneUpdate stPlain "3" "volume" "70").1.zones 3 =
          some { zonePlain with source := "70" }) ∧
    ("volume" = "connected" →
        alookup (zoneUpdate stPlain "3" "volume" "70").1.zones 3 =
          some { zonePlain with connected := "70" }) :=
  C5_single_field_update stPlain "3" "volume" "70" 3 70 zonePlain
    (by decide) (by decide) (by decide) (fun _ => by decide)

/-- Claim C6: a `volume` (or group `zone_count`) payload that does not parse as
a base-10 integer leaves the record — indeed the whole state — unchanged; the
message is still fully consumed (the total handler returns normally, emitting
its snapshot notification) and nothing is raised to the caller. -/
theorem C6_invalid_int_payload :
    (∀ (st : CoordState) (idStr payload : String) (zid : Int) (z : ZoneRecord),
        intOfString? idStr = some zid →
        alookup st.zones zid = some z →
        intOfString? payload = none →
        zoneUpdate st idStr "volume" payload = (st, [st.zones])) ∧
    (∀ (st : CoordState) (idStr payload : String) (gid : Int) (g : GroupRecord),
        intOfString? idStr = some gid →
        alookup st.groups gid = some g →
        intOfString? payload = none →
        groupUpdate st idStr "volume" payload = (st, [st.zones])) ∧
    (∀ (st : CoordState) (idStr payload : String) (gid : Int) (g : GroupRecord),
        intOfString? idStr = some gid →
        alookup st.groups gid = some g →
        intOfString? payload = none →
        groupUpdate st idStr "zone_count" payload = (st, [st.zones])) := by
  refine ⟨?_, ?_, ?_⟩
  · intro st idStr payload zid z hid hz hp
    have h1 : applyZoneAttr z "volume" payload = z := by simp [applyZoneAttr, hp]
    simp [zoneUpdate, hid, hz, h1, aupdate_self st.zones zid z hz]
  · intro st idStr payload gid g hid hg hp
    have hens : ensureGroup st.groups gid = st.groups := by simp [ensureGroup, hg]
    have h1 : applyGroupAttr g "volume" payload = g := by simp [applyGroupAttr, hp]
    simp [groupUpdate, hid, hens, hg, h1, aupdate_self st.groups gid g hg]
  · intro st idStr payload gid g hid hg hp
    have hens : ensureGroup st.groups gid = st.groups := by simp [ensureGroup, hg]
    have h1 : applyGroupAttr g "zone_count" payload = g := by simp [applyGroupAttr, hp]
    simp [groupUpdate, hid, hens, hg, h1, aupdate_self st.groups gid g hg]

/-- Claim C6, witness: payload `"abc"` for a zone volume, a group volume and a
group `zone_count` all leave the state unchanged. -/
theorem C6_witness :
    zoneUpdate stWithGroup "3" "volume" "abc" = (stWithGroup, [stWithGroup.zones]) ∧
    groupUpdate stWithGroup "7" "volume" "abc" = (stWithGroup, [stWithGroup.zones]) ∧
    groupUpdate stWithGroup "7" "zone_count" "5.5" = (stWithGroup, [stWithGroup.zones]) :=
  ⟨C6_invalid_int_payload.1 stWithGroup "3" "abc" 3 zonePlain
      (by decide) (by decide) (by decide),
   C6_invalid_int_payload.2.1 stWithGroup "7" "abc" 7 (defaultGroup 7)
      (by decide) (by decide) (by decide),
   C6_invalid_int_payload.2.2 stWithGroup "7" "5.5" 7 (defaultGroup 7)
      (by decide) (by decide) (by decide)⟩

/-- Claim C7, counterexample: a 200/success response whose second zone object
is missing its `name` field aborts discovery after the first zone was already
stored — the zone map is left partially populated (one record), not empty, so
the claimed atomicity does not hold. -/
theorem C7_counterexample :
    convertApiZone apiZoneNoName = none ∧
    (discover_zones_via_api initialState
        (ApiResult.response 200 (some true) (some [apiZoneGood, apiZoneNoName]))).1.zones =
      [(1, recGood)] ∧
    ([(1, recGood)] : List (Int × ZoneRecord)) ≠ [] ∧
    (discover_zones_via_api initialState
        (ApiResult.response 200 (some true) (some [apiZoneGood, apiZoneNoName]))).2 = [] := by
  exact ⟨by decide, by decide, by decide, by decide⟩

/-- Claim C7, amended: on a network exception, a non-200 status, a missing or
non-true `success` flag, or a missing `zones` key, discovery leaves the state
exactly unchanged with no notification and no exception; but a missing field
inside an individual zone object merely aborts the iteration, keeping every
zone inserted before the failing one (no atomicity), still with no
notification. -/
theorem C7_amended_failure_handling :
    (∀ st : CoordState, discover_zones_via_api st ApiResult.netError = (st, [])) ∧
    (∀ (st : CoordState) (status : Int) (success : Option Bool)
        (zs : Option (List ApiZone)), status ≠ 200 →
        discover_zones_via_api st (ApiResult.response status success zs) = (st, [])) ∧
    (∀ (st : CoordState) (success : Option Bool) (zs : Option (List ApiZone)),
        success ≠ some true →
        discover_zones_via_api st (ApiResult.response 200 success zs) = (st, [])) ∧
    (∀ (st : CoordState) (success : Option Bool),
        discover_zones_via_api st (ApiResult.response 200 success none) = (st, [])) ∧
    (∀ (zones : List (Int × ZoneRecord)) (pre : List ApiZone) (zd : ApiZone)
        (rest : List ApiZone),
        (insertZones zones pre).2 = true →
        convertApiZone zd = none →
        insertZones zones (pre ++ zd :: rest) = ((insertZones zones pre).1, false)) ∧
    (∀ (st : CoordState) (zds : List ApiZone),
        (insertZones st.zones zds).2 = false →
        (discover_zones_via_api st (ApiResult.response 200 (some true) (some zds))).2 =
          []) := by
  refine ⟨?_, ?_, ?_, ?_, ?_, ?_⟩
  · intro st
    rfl
  · intro st status success zs h
    simp [discover_zones_via_api, h]
  · intro st success zs h
    rcases success with _ | b
    · simp [discover_zones_via_api]
    · cases b
      · simp [discover_zones_via_api]
      · exact absurd rfl h
  · intro st success
    rcases success with _ | b
    · simp [discover_zones_via_api]
    · cases b <;> simp [discover_zones_via_api]
  · intro zones pre zd rest
    induction pre generalizing zones with
    | nil =>
      intro _ hzd
      simp [insertZones, hzd]
    | cons p ps ih =>
      intro hpre hzd
      cases hc : convertApiZone p with
      | none =>
        simp [insertZones, hc] at hpre
      | some pr =>
        obtain ⟨i, r⟩ := pr
        simp only [List.cons_append, insertZones, hc] at hpre ⊢
        exact ih (aupdate zones i r) hpre hzd
  · intro st zds h
    simp [discover_zones_via_api, h]

/-- Claim C7, witness: concrete failing responses leave the state unchanged;
a mid-list missing field aborts the loop keeping earlier zones. -/
theorem C7_witness :
    discover_zones_via_api stPlain (ApiResult.response 500 (some true) (some [])) =
      (stPlain, []) ∧
    discover_zones_via_api stPlain (ApiResult.response 200 (some false) (some [])) =
      (stPlain, []) ∧
    discover_zones_via_api stPlain (ApiResult.response 200 (some true) none) =
      (stPlain, []) ∧
    insertZones [] ([apiZoneGood] ++ apiZoneNoName :: []) =
      ((insertZones [] [apiZoneGood]).1, false) ∧
    (discover_zones_via_api initialState
        (ApiResult.response 200 (some true) (some [apiZoneNoName]))).2 = [] :=
  ⟨C7_amended_failure_handling.2.1 stPlain 500 (some true) (some []) (by decide),
   C7_amended_failure_handling.2.2.1 stPlain (some false) (some []) (by decide),
   C7_amended_failure_handling.2.2.2.1 stPlain (some true),
   C7_amended_failure_handling.2.2.2.2.1 [] [apiZoneGood] apiZoneNoName []
      (by decide) (by decide),
   C7_amended_failure_handling.2.2.2.2.2 initialState [apiZoneNoName] (by decide)⟩

/-- Claim C8, counterexample: ingesting the textual volume `"150"` for zone 3
(previous volume 50) stores 150, outside the claimed 0–100 range — there is no
range check anywhere. -/
theorem C8_counterexample :
    zonePlain.volume = 50 ∧
    (alookup ((zoneUpdate stPlain "3" "volume" "150").1.zones) 3).map
        (fun z => z.volume) = some 150 ∧
    ¬ (150 : Int) ≤ 100 := by
  exact ⟨by decide, by decide, by decide⟩

/-- Claim C8, amended: the volume field stores exactly whatever integer the
payload parses to (no 0–100 restriction), and discovery stores the API-supplied
volume verbatim; only a payload that fails integer parsing is rejected with the
prior value retained. -/
theorem C8_amended_no_range_check :
    (∀ (st : CoordState) (idStr payload : String) (zid v : Int) (z : ZoneRecord),
        intOfString? idStr = some zid →
        alookup st.zones zid = some z →
        intOfString? payload = some v →
        alookup ((zoneUpdate st idStr "volume" payload).1.zones) zid =
          some { z with volume := v }) ∧
    (∀ (st : CoordState) (idStr payload : String) (zid : Int) (z : ZoneRecord),
        intOfString? idStr = some zid →
        alookup st.zones zid = some z →
        intOfString? payload = none →
        alookup ((zoneUpdate st idStr "volume" payload).1.zones) zid = some z) ∧
    (∀ (i v : Int) (n s : String) (m c : Bool) (av : Option (List String)),
        (convertApiZone
            { id := some i, name := some n, volume := some v, muted := some m,
              source := some s, connected := some c,
              available_sources := av }).map (fun p => p.2.volume) = some v) := by
  refine ⟨?_, ?_, ?_⟩
  · intro st idStr payload zid v z hid hz hp
    simp [zoneUpdate, hid, hz, applyZoneAttr, hp, alookup_aupdate_self]
  · intro st idStr payload zid z hid hz hp
    simp [zoneUpdate, hid, hz, applyZoneAttr, hp, alookup_aupdate_self]
  · intro i v n s m c av
    simp [convertApiZone]

/-- Claim C8, witness at volume payload `"150"` (out of range, stored anyway),
`"abc"` (rejected, prior value kept) and an API volume of 150. -/
theorem C8_witness :
    alookup ((zoneUpdate stPlain "3" "volume" "150").1.zones) 3 =
      some { zonePlain with volume := 150 } ∧
    alookup ((zoneUpdate stPlain "3" "volume" "abc").1.zones) 3 = some zonePlain ∧
    (convertApiZone
        { id := some 1, name := some "Z", volume := some 150, muted := some false,
          source := some "Off", connected := some true,
          available_sources := none }).map (fun p => p.2.volume) = some 150 :=
  ⟨C8_amended_no_range_check.1 stPlain "3" "150" 3 150 zonePlain
      (by decide) (by decide) (by decide),
   C8_amended_no_range_check.2.1 stPlain "3" "abc" 3 zonePlain
      (by decide) (by decide) (by decide),
   C8_amended_no_range_check.2.2 1 150 "Z" "Off" false true none⟩

/-- Claim C10: every groups message whose id parses as an integer emits exactly
one snapshot notification (of the zones map), even when the attribute is
unrecognized and no field changes; a fresh group id is created with the default
record; and a message for a discovered zone with an unrecognized attribute also
notifies despite changing nothing. -/
theorem C10_notify_on_receipt :
    (∀ (st : CoordState) (idStr attr payload : String) (gid : Int),
        intOfString? idStr = some gid →
        (groupUpdate st idStr attr payload).2 = [st.zones]) ∧
    (∀ (st : CoordState) (idStr attr payload : String) (gid : Int),
        intOfString? idStr = some gid →
        alookup st.groups gid = none →
        attr ∉ GROUP_ATTRIBUTES →
        (groupUpdate st idStr attr payload).1.groups =
          st.groups ++ [(gid, defaultGroup gid)]) ∧
    (∀ (st : CoordState) (idStr attr payload : String) (zid : Int) (z : ZoneRecord),
        intOfString? idStr = some zid →
        alookup st.zones zid = some z →
        attr ∉ ZONE_ATTRIBUTES →
        zoneUpdate st idStr attr payload = (st, [st.zones])) := by
  refine ⟨?_, ?_, ?_⟩
  · intro st idStr attr payload gid hid
    cases hg : alookup (ensureGroup st.groups gid) gid <;> simp [groupUpdate, hid, hg]
  · intro st idStr attr payload gid hid hg hattr
    have hens : ensureGroup st.groups gid = st.groups ++ [(gid, defaultGroup gid)] := by
      simp [ensureGroup, hg]
    have hlook : alookup (ensureGroup st.groups gid) gid = some (defaultGroup gid) := by
      rw [hens]
      exact alookup_append_missing st.groups gid _ hg
    have hupd := aupdate_self (ensureGroup st.groups gid) gid (defaultGroup gid) hlook
    simp only [groupUpdate, hid, hlook,
      applyGroupAttr_not_recognized (defaultGroup gid) attr payload hattr, hupd]
    exact hens
  · intro st idStr attr payload zid z hid hz hattr
    have h1 := applyZoneAttr_not_recognized z attr payload hattr
    simp [zoneUpdate, hid, hz, h1, aupdate_self st.zones zid z hz]

/-- Claim C10, witness: unrecognized attribute `"icon"` — fresh group 9 is
created and notified; zone 3 is notified with no state change. -/
theorem C10_witness :
    (groupUpdate stWithGroup "9" "icon" "x").2 = [stWithGroup.zones] ∧
    (groupUpdate stWithGroup "9" "icon" "x").1.groups =
      stWithGroup.groups ++ [(9, defaultGroup 9)] ∧
    zoneUpdate stWithGroup "3" "icon" "x" = (stWithGroup, [stWithGroup.zones]) :=
  ⟨C10_notify_on_receipt.1 stWithGroup "9" "icon" "x" 9 (by decide),
   C10_notify_on_receipt.2.1 stWithGroup "9" "icon" "x" 9
      (by decide) (by decide) (by decide),
   C10_notify_on_receipt.2.2 stWithGroup "3" "icon" "x" 3 zonePlain
      (by decide) (by decide) (by decide)⟩

end AmpBridge
